import Mathlib

/-!
Shallow embedding of the ethereum consensus module
(src/voyager/modules/consensus/ethereum/src/main.rs).

Upstream I/O (the alloy execution-layer provider and the beacon API client)
is modelled as records of responses: each upstream call site in the source
reads one field of the record.  Transport errors are `Except.error` values
carrying the upstream cause as a string.  A Rust `panic` (from `.unwrap()` /
`.expect(..)`) is modelled by the `Outcome.fatal` constructor, distinct from
`Outcome.err`, which models a returned `Err(ErrorObject)` of an `RpcResult`.
-/

namespace VoyagerEthConsensus

/-- Result of an operation in the embedding: `ok` models `Ok`, `err` models a
returned `Err` value (an error result given back to the caller), and `fatal`
models a Rust panic (`unwrap` / `expect`), which aborts instead of returning. -/
inductive Outcome (ε : Type) (α : Type) where
  | ok (a : α)
  | err (e : ε)
  | fatal (msg : String)
deriving DecidableEq, Repr

/-- Whether the outcome is a returned error result. -/
def Outcome.isErr {ε α : Type} : Outcome ε α → Bool
  | .err _ => true
  | _ => false

/-- Whether the outcome is a success. -/
def Outcome.isOk {ε α : Type} : Outcome ε α → Bool
  | .ok _ => true
  | _ => false

/-- Whether the outcome is a panic (process abort). -/
def Outcome.isFatal {ε α : Type} : Outcome ε α → Bool
  | .fatal _ => true
  | _ => false

/-- `jsonrpsee::types::ErrorObject`, as built by `ErrorObject::owned(code, message, None)`. -/
structure ErrorObject where
  code : Int
  message : String
deriving DecidableEq, Repr

/-- `unionlabs::ErrorReporter` renders an upstream error (with its cause chain)
as a string; upstream errors are already strings in the embedding. -/
def ErrorReporter (e : String) : String := e

/-- `alloy::rpc::types::BlockTransactionsKind`: whether a fetched block carries
full transaction bodies or only hashes (header-only fetch). -/
inductive BlockTransactionsKind where
  | full
  | hashes
deriving DecidableEq, Repr

/-- Block selector passed to `Provider::get_block`: either a concrete block
number (`(block_number + 1).into()`) or `BlockNumberOrTag::Latest`. -/
inductive BlockId where
  | number (n : Nat)
  | latest
deriving DecidableEq, Repr

/-- The parts of an execution-layer block header the module reads:
`parent_beacon_block_root` (the back-reference into the consensus layer,
optional) and `timestamp` (seconds). The root is an `H256`, modelled opaquely
as a `Nat`. -/
structure Header where
  parent_beacon_block_root : Option Nat
  timestamp : Nat
deriving DecidableEq, Repr

/-- An execution-layer block as returned by `Provider::get_block`. -/
structure Block where
  header : Header
deriving DecidableEq, Repr

/-- The execution-layer provider (`RootProvider<BoxTransport>`), modelled as a
record of responses for the three calls the module makes. `Except.error`
carries a transport-failure cause. -/
structure Provider where
  get_chain_id : Except String Nat
  get_block_number : Except String Nat
  get_block : BlockId → BlockTransactionsKind → Except String (Option Block)

/-- `message.slot` of a consensus-layer block. Slots are `u64`, modelled as `Nat`. -/
structure BeaconBlockMessage where
  slot : Nat
deriving DecidableEq, Repr

/-- `data.message` of a beacon block response. -/
structure BeaconBlockData where
  message : BeaconBlockMessage
deriving DecidableEq, Repr

/-- Response of `BeaconApiClient::block`. -/
structure BeaconBlockResponse where
  data : BeaconBlockData
deriving DecidableEq, Repr

/-- The execution payload embedded in a finalized light-client header:
execution-layer block number and timestamp (seconds). -/
structure ExecutionPayloadHeader where
  block_number : Nat
  timestamp : Nat
deriving DecidableEq, Repr

/-- `finalized_header` of a finality update: carries the execution payload. -/
structure LightClientHeader where
  execution : ExecutionPayloadHeader
deriving DecidableEq, Repr

/-- `data` of a finality update response. -/
structure FinalityUpdateData where
  finalized_header : LightClientHeader
deriving DecidableEq, Repr

/-- Response of `BeaconApiClient::finality_update` (the latest finality
certificate). -/
structure FinalityUpdateResponse where
  data : FinalityUpdateData
deriving DecidableEq, Repr

/-- `beacon_api_types::PresetBaseKind`: the consensus spec preset family. -/
inductive PresetBaseKind where
  | minimal
  | mainnet
deriving DecidableEq, Repr

/-- `Display` for `PresetBaseKind` (used in the spec-mismatch error message). -/
def PresetBaseKind.display : PresetBaseKind → String
  | .minimal => "minimal"
  | .mainnet => "mainnet"

/-- The `data` of the beacon spec response; the module reads `preset_base`. -/
structure SpecData where
  preset_base : PresetBaseKind
deriving DecidableEq, Repr

/-- Response of `BeaconApiClient::spec`. -/
structure SpecResponse where
  data : SpecData
deriving DecidableEq, Repr

/-- The consensus-layer client (`BeaconApiClient`), modelled as a record of
responses for the three calls the module makes. -/
structure BeaconApiClient where
  spec : Except String SpecResponse
  finality_update : Except String FinalityUpdateResponse
  block : Nat → Except String BeaconBlockResponse

/-- `unionlabs` `Height`. Modelled from the spec: a revision-less
block-number wrapper (the `Height` type itself is outside src/). -/
structure Height where
  height : Nat
deriving DecidableEq, Repr

/-- `Height::new`. -/
def Height.new (n : Nat) : Height := ⟨n⟩

/-- `voyager_message::core::Timestamp`. Modelled from the spec: a canonical
wall-clock instant normalized to seconds-since-epoch at the boundary (the
`Timestamp` type itself is outside src/); `secs` is that normalized value. -/
structure Timestamp where
  secs : Nat
deriving DecidableEq, Repr

/-- `Timestamp::from_secs`: builds a `Timestamp` from a seconds value. -/
def Timestamp.from_secs (s : Nat) : Timestamp := ⟨s⟩

/-- `voyager_message::core::ConsensusType::ETHEREUM`. -/
def ConsensusTypeEthereum : String := "ethereum"

/-- `ConsensusModuleInfo`: the orchestrator-supplied expectations checked at
construction. Modelled from the spec: the orchestrator supplies the expected
chain identifier and consensus mechanism family (the type and its `ensure_*`
methods live in voyager_message, outside src/). -/
structure ConsensusModuleInfo where
  chain_id : String
  consensus_type : String

/-- `ConsensusModuleInfo::ensure_chain_id`. Modelled from the spec: fail with
a `ChainIdentityMismatch` condition if the reported identifier does not equal
the orchestrator-expected identifier. -/
def ConsensusModuleInfo.ensure_chain_id (info : ConsensusModuleInfo)
    (reported : String) : Except String Unit :=
  if reported = info.chain_id then .ok ()
  else
    .error ("ChainIdentityMismatch: expected `" ++ info.chain_id
      ++ "`, but the chain reports `" ++ reported ++ "`")

/-- `ConsensusModuleInfo::ensure_consensus_type`. Modelled from the spec: fail
with a `ConsensusTypeMismatch` condition if the module's consensus mechanism
family is not the expected one. -/
def ConsensusModuleInfo.ensure_consensus_type (info : ConsensusModuleInfo)
    (ty : String) : Except String Unit :=
  if ty = info.consensus_type then .ok ()
  else
    .error ("ConsensusTypeMismatch: expected `" ++ info.consensus_type
      ++ "`, but the module provides `" ++ ty ++ "`")

/-- The module's `Config`. -/
structure Config where
  chain_spec : PresetBaseKind
  rpc_url : String
  beacon_rpc_url : String

/-- The `Module` struct: the bound identity plus the two upstream handles. -/
structure Module where
  chain_id : String
  chain_spec : PresetBaseKind
  provider : Provider
  beacon_api_client : BeaconApiClient

/-- The construction environment: `ProviderBuilder::new().on_builtin(url)` and
`BeaconApiClient::new(url)`, each of which may fail with a transport cause. -/
structure Env where
  connect_provider : String → Except String Provider
  connect_beacon : String → Except String BeaconApiClient

/-- `Module::new` (the `ConsensusModule` impl). `?`-propagated failures become
`Outcome.err`; the `.unwrap()` on the beacon spec query becomes
`Outcome.fatal`. -/
def Module.new (env : Env) (config : Config) (info : ConsensusModuleInfo) :
    Outcome String Module :=
  match env.connect_provider config.rpc_url with
  | .error e => .err e
  | .ok provider =>
    match provider.get_chain_id with
    | .error e => .err e
    | .ok cid =>
      let chain_id := toString cid
      match info.ensure_chain_id chain_id with
      | .error e => .err e
      | .ok _ =>
        match info.ensure_consensus_type ConsensusTypeEthereum with
        | .error e => .err e
        | .ok _ =>
          match env.connect_beacon config.beacon_rpc_url with
          | .error e => .err e
          | .ok beacon_api_client =>
            match beacon_api_client.spec with
            | .error e =>
              .fatal ("called Result::unwrap() on an Err value: " ++ e)
            | .ok specResponse =>
              let specData := specResponse.data
              if specData.preset_base ≠ config.chain_spec then
                .err ("incorrect chain spec: expected `"
                  ++ config.chain_spec.display ++ "`, but found `"
                  ++ specData.preset_base.display ++ "`")
              else
                .ok ⟨chain_id, specData.preset_base, provider, beacon_api_client⟩

/-- `Module::beacon_slot_of_execution_block_number`: fetch execution block
`block_number + 1` (hashes only), take its `parent_beacon_block_root`
(panicking if absent, per `.expect`), resolve it through the beacon client and
return `data.message.slot`. -/
def Module.beacon_slot_of_execution_block_number (m : Module)
    (block_number : Nat) : Outcome ErrorObject Nat :=
  match m.provider.get_block (BlockId.number (block_number + 1))
      BlockTransactionsKind.hashes with
  | .error e => .err ⟨-1, "error fetching block: " ++ ErrorReporter e⟩
  | .ok none => .fatal "block should exist"
  | .ok (some block) =>
    match block.header.parent_beacon_block_root with
    | none => .fatal "parent beacon block root should exist"
    | some root =>
      match m.beacon_api_client.block root with
      | .error e => .err ⟨-1, "error fetching block: " ++ ErrorReporter e⟩
      | .ok resp => .ok resp.data.message.slot

/-- `Module::query_latest_height` (the `ConsensusModuleServer` impl): finalized
path reads the finality update's finalized execution block number (mapping the
upstream error to an `ErrorObject`); the latest path unwraps
`get_block_number` (panicking on failure). -/
def Module.query_latest_height (m : Module) (finalized : Bool) :
    Outcome ErrorObject Height :=
  if finalized then
    match m.beacon_api_client.finality_update with
    | .ok response =>
      .ok (Height.new response.data.finalized_header.execution.block_number)
    | .error e => .err ⟨-1, ErrorReporter e⟩
  else
    match m.provider.get_block_number with
    | .ok n => .ok (Height.new n)
    | .error e => .fatal ("called Result::unwrap() on an Err value: " ++ e)

/-- `Module::query_latest_timestamp`: finalized path reads the finality
update's finalized execution timestamp (`?`-propagating the mapped error);
the latest path unwraps `get_block(Latest)` twice (panicking on a transport
failure and on an absent head block); both paths return
`Timestamp::from_secs` of the value read. -/
def Module.query_latest_timestamp (m : Module) (finalized : Bool) :
    Outcome ErrorObject Timestamp :=
  match
    (if finalized then
      match m.beacon_api_client.finality_update with
      | .error e => Outcome.err (ε := ErrorObject) ⟨-1, ErrorReporter e⟩
      | .ok response =>
        Outcome.ok response.data.finalized_header.execution.timestamp
    else
      match m.provider.get_block BlockId.latest BlockTransactionsKind.hashes with
      | .error e =>
        Outcome.fatal ("called Result::unwrap() on an Err value: " ++ e)
      | .ok none => Outcome.fatal "called Option::unwrap() on a None value"
      | .ok (some b) => Outcome.ok b.header.timestamp) with
  | .err e => .err e
  | .fatal msg => .fatal msg
  | .ok latest_timestamp => .ok (Timestamp.from_secs latest_timestamp)

/-! Concrete fixtures used by witnesses and counterexamples. -/

/-- A provider for the spec's round-trip scenario: block 101 carries
back-reference 7, the head block is 600 with timestamp 1700000600. -/
def roundTripProvider : Provider where
  get_chain_id := .ok 1
  get_block_number := .ok 600
  get_block := fun id _ =>
    match id with
    | .number 101 => .ok (some ⟨⟨some 7, 1700000012⟩⟩)
    | .latest => .ok (some ⟨⟨none, 1700000600⟩⟩)
    | _ => .ok none

/-- A beacon client where back-reference 7 resolves to consensus slot 42 and
the finality certificate reports execution height 500 / timestamp 1700000000. -/
def roundTripBeacon : BeaconApiClient where
  spec := .ok ⟨⟨.mainnet⟩⟩
  finality_update := .ok ⟨⟨⟨⟨500, 1700000000⟩⟩⟩⟩
  block := fun r => if r = 7 then .ok ⟨⟨⟨42⟩⟩⟩ else .error "block not found"

/-- Module over the round-trip fixtures. -/
def roundTripModule : Module :=
  ⟨"1", .mainnet, roundTripProvider, roundTripBeacon⟩

/-- A provider where no block exists at any queried position. -/
def emptyProvider : Provider where
  get_chain_id := .ok 1
  get_block_number := .ok 600
  get_block := fun _ _ => .ok none

/-- Module whose execution layer has no block at position 101. -/
def noBlockModule : Module := ⟨"1", .mainnet, emptyProvider, roundTripBeacon⟩

/-- A provider where block 101 exists but carries no back-reference. -/
def noBackrefProvider : Provider where
  get_chain_id := .ok 1
  get_block_number := .ok 600
  get_block := fun id _ =>
    match id with
    | .number 101 => .ok (some ⟨⟨none, 1700000012⟩⟩)
    | _ => .ok none

/-- Module whose block 101 has no back-reference field. -/
def noBackrefModule : Module :=
  ⟨"1", .mainnet, noBackrefProvider, roundTripBeacon⟩

/-- A provider every call of which fails at the transport level. -/
def failingProvider : Provider where
  get_chain_id := .error "connection refused"
  get_block_number := .error "connection refused"
  get_block := fun _ _ => .error "connection refused"

/-- A beacon client every call of which fails at the transport level. -/
def failingBeacon : BeaconApiClient where
  spec := .error "connection refused"
  finality_update := .error "connection refused"
  block := fun _ => .error "connection refused"

/-- Module whose upstreams always fail at the transport level. -/
def failingModule : Module := ⟨"1", .mainnet, failingProvider, failingBeacon⟩

/-- Configuration expecting the mainnet preset. -/
def mainnetConfig : Config := ⟨.mainnet, "http://eth", "http://beacon"⟩

/-- Orchestrator expectations matching the round-trip fixtures. -/
def matchingInfo : ConsensusModuleInfo := ⟨"1", "ethereum"⟩

/-- A beacon client that reports the minimal preset. -/
def minimalBeacon : BeaconApiClient where
  spec := .ok ⟨⟨.minimal⟩⟩
  finality_update := .error "no finality update"
  block := fun _ => .error "block not found"

/-- Environment where both connections succeed and the beacon reports the
mainnet preset. -/
def goodEnv : Env :=
  ⟨fun _ => .ok roundTripProvider, fun _ => .ok roundTripBeacon⟩

/-- Environment where both connections succeed but the beacon reports the
minimal preset. -/
def minimalEnv : Env :=
  ⟨fun _ => .ok roundTripProvider, fun _ => .ok minimalBeacon⟩

/-- Environment where the beacon client is constructed but its spec query
fails at the transport level. -/
def specFailEnv : Env :=
  ⟨fun _ => .ok roundTripProvider, fun _ => .ok failingBeacon⟩

/-- Environment where connecting the execution-layer provider fails. -/
def noProviderEnv : Env :=
  ⟨fun _ => .error "connection refused", fun _ => .ok roundTripBeacon⟩

/-- Environment where the provider connects but its chain-id query fails. -/
def chainIdFailEnv : Env :=
  ⟨fun _ => .ok failingProvider, fun _ => .ok roundTripBeacon⟩

/-- Environment where connecting the beacon client fails. -/
def noBeaconEnv : Env :=
  ⟨fun _ => .ok roundTripProvider, fun _ => .error "connection refused"⟩

/-! Claim theorems. -/

/-- C1: for every block number `n`, `beacon_slot_of_execution_block_number n`
fetches the execution block at position `n + 1` header-only (hashes kind),
resolves that block's back-reference through the consensus-layer client, and
returns the slot of the referenced consensus block's message. -/
theorem c1_slot_resolution (m : Module) (n : Nat) (b : Block) (r : Nat)
    (resp : BeaconBlockResponse)
    (hb : m.provider.get_block (BlockId.number (n + 1))
      BlockTransactionsKind.hashes = .ok (some b))
    (hr : b.header.parent_beacon_block_root = some r)
    (hc : m.beacon_api_client.block r = .ok resp) :
    m.beacon_slot_of_execution_block_number n = .ok resp.data.message.slot := by
  simp only [Module.beacon_slot_of_execution_block_number, hb, hr, hc]

/-- C1 witness: on the round-trip fixtures, block 101 carries back-reference 7,
7 resolves to consensus slot 42, and resolving block 100 returns exactly 42. -/
theorem c1_slot_resolution_witness :
    roundTripModule.provider.get_block (BlockId.number (100 + 1))
      BlockTransactionsKind.hashes = .ok (some ⟨⟨some 7, 1700000012⟩⟩)
    ∧ roundTripModule.beacon_api_client.block 7 = .ok ⟨⟨⟨42⟩⟩⟩
    ∧ roundTripModule.beacon_slot_of_execution_block_number 100 = .ok 42 :=
  ⟨rfl, rfl, c1_slot_resolution roundTripModule 100 ⟨⟨some 7, 1700000012⟩⟩ 7
    ⟨⟨⟨42⟩⟩⟩ rfl rfl rfl⟩

/-- C2: `query_latest_height true` returns the execution block number embedded
in the finality certificate's finalized header, and `query_latest_height
false` returns the provider's current head block number directly. -/
theorem c2_latest_height (m : Module) (resp : FinalityUpdateResponse) (n : Nat)
    (hf : m.beacon_api_client.finality_update = .ok resp)
    (hn : m.provider.get_block_number = .ok n) :
    m.query_latest_height true
      = .ok (Height.new resp.data.finalized_header.execution.block_number)
    ∧ m.query_latest_height false = .ok (Height.new n) := by
  constructor
  · simp only [Module.query_latest_height, if_pos, hf]
  · simp only [Module.query_latest_height, if_neg, hn, Bool.false_eq_true,
      reduceIte]

/-- C2 witness: with a finality certificate reporting execution height 500 and
head block number 600, the finalized query returns 500 and the latest query
returns 600. -/
theorem c2_latest_height_witness :
    roundTripModule.query_latest_height true = .ok (Height.new 500)
    ∧ roundTripModule.query_latest_height false = .ok (Height.new 600) :=
  c2_latest_height roundTripModule ⟨⟨⟨⟨500, 1700000000⟩⟩⟩⟩ 600 rfl rfl

/-- C3: `query_latest_timestamp true` returns the timestamp embedded in the
finality certificate's finalized execution header and `query_latest_timestamp
false` returns the head block header's embedded timestamp; both paths apply
the same normalization `Timestamp.from_secs` to a seconds value. -/
theorem c3_latest_timestamp (m : Module) (resp : FinalityUpdateResponse)
    (b : Block)
    (hf : m.beacon_api_client.finality_update = .ok resp)
    (hb : m.provider.get_block BlockId.latest BlockTransactionsKind.hashes
      = .ok (some b)) :
    m.query_latest_timestamp true
      = .ok (Timestamp.from_secs resp.data.finalized_header.execution.timestamp)
    ∧ m.query_latest_timestamp false
      = .ok (Timestamp.from_secs b.header.timestamp) := by
  constructor
  · simp only [Module.query_latest_timestamp, if_pos, hf]
  · simp only [Module.query_latest_timestamp, if_neg, hb, Bool.false_eq_true,
      reduceIte]

/-- C3 witness: finalized timestamp 1700000000 and head timestamp 1700000600
are both returned through `Timestamp.from_secs`. -/
theorem c3_latest_timestamp_witness :
    roundTripModule.query_latest_timestamp true
      = .ok (Timestamp.from_secs 1700000000)
    ∧ roundTripModule.query_latest_timestamp false
      = .ok (Timestamp.from_secs 1700000600) :=
  c3_latest_timestamp roundTripModule ⟨⟨⟨⟨500, 1700000000⟩⟩⟩⟩
    ⟨⟨none, 1700000600⟩⟩ rfl rfl

/-- C4 counterexample: on a module with no block at position 101, resolving
block 100 panics with `block should exist` — a fatal abort, not a returned
`BlockNotFound` error result. -/
theorem c4_counterexample :
    noBlockModule.beacon_slot_of_execution_block_number 100
      = .fatal "block should exist"
    ∧ (noBlockModule.beacon_slot_of_execution_block_number 100).isErr
      = false := ⟨rfl, rfl⟩

/-- C4 amended: if no execution block exists at position `n + 1`, then
`beacon_slot_of_execution_block_number n` fails fatally, panicking with
`block should exist` (per the source's `.expect`) instead of returning a
retryable error result. -/
theorem c4_missing_block_panics (m : Module) (n : Nat)
    (h : m.provider.get_block (BlockId.number (n + 1))
      BlockTransactionsKind.hashes = .ok none) :
    m.beacon_slot_of_execution_block_number n = .fatal "block should exist" := by
  simp only [Module.beacon_slot_of_execution_block_number, h]

/-- C4 witness: the no-block fixture satisfies the hypothesis and panics. -/
theorem c4_missing_block_panics_witness :
    noBlockModule.provider.get_block (BlockId.number (100 + 1))
      BlockTransactionsKind.hashes = .ok none
    ∧ noBlockModule.beacon_slot_of_execution_block_number 100
      = .fatal "block should exist" :=
  ⟨rfl, c4_missing_block_panics noBlockModule 100 rfl⟩

/-- C5 counterexample: on a module where block 101 exists but carries no
back-reference, resolving block 100 panics with `parent beacon block root
should exist` — a fatal abort, not a returned `MissingBackReference` error
result. -/
theorem c5_counterexample :
    noBackrefModule.beacon_slot_of_execution_block_number 100
      = .fatal "parent beacon block root should exist"
    ∧ (noBackrefModule.beacon_slot_of_execution_block_number 100).isErr
      = false := ⟨rfl, rfl⟩

/-- C5 amended: if the execution block at position `n + 1` exists but its
back-reference field is absent, then `beacon_slot_of_execution_block_number n`
fails fatally, panicking with `parent beacon block root should exist` (per the
source's `.expect`) instead of returning an error result; in particular it
never returns a slot, so no default or zero slot is produced. -/
theorem c5_missing_backref_panics (m : Module) (n : Nat) (b : Block)
    (hb : m.provider.get_block (BlockId.number (n + 1))
      BlockTransactionsKind.hashes = .ok (some b))
    (hr : b.header.parent_beacon_block_root = none) :
    m.beacon_slot_of_execution_block_number n
      = .fatal "parent beacon block root should exist"
    ∧ (m.beacon_slot_of_execution_block_number n).isOk = false := by
  have h : m.beacon_slot_of_execution_block_number n
      = .fatal "parent beacon block root should exist" := by
    simp only [Module.beacon_slot_of_execution_block_number, hb, hr]
  exact ⟨h, by simp [h, Outcome.isOk]⟩

/-- C5 witness: the no-back-reference fixture satisfies the hypotheses. -/
theorem c5_missing_backref_panics_witness :
    noBackrefModule.provider.get_block (BlockId.number (100 + 1))
      BlockTransactionsKind.hashes = .ok (some ⟨⟨none, 1700000012⟩⟩)
    ∧ noBackrefModule.beacon_slot_of_execution_block_number 100
      = .fatal "parent beacon block root should exist"
    ∧ (noBackrefModule.beacon_slot_of_execution_block_number 100).isOk
      = false :=
  ⟨rfl, c5_missing_backref_panics noBackrefModule 100 ⟨⟨none, 1700000012⟩⟩
    rfl rfl⟩

/-- C6 counterexample: on a module whose provider fails at the transport
level, `query_latest_height false` panics (from `.unwrap()`) instead of
returning a `QueryFailed` error result — the failure aborts rather than being
returned to the caller. -/
theorem c6_counterexample :
    failingModule.query_latest_height false
      = .fatal "called Result::unwrap() on an Err value: connection refused"
    ∧ (failingModule.query_latest_height false).isErr = false := ⟨rfl, rfl⟩

/-- C6 amended: on the finalized paths of both queries a transport failure is
returned to the caller as an error result carrying the upstream cause, but on
the non-finalized paths both queries unwrap the provider result and fail
fatally (panic) on a transport failure. -/
theorem c6_transport_failures (m : Module) (e₁ e₂ e₃ : String)
    (h₁ : m.beacon_api_client.finality_update = .error e₁)
    (h₂ : m.provider.get_block_number = .error e₂)
    (h₃ : m.provider.get_block BlockId.latest BlockTransactionsKind.hashes
      = .error e₃) :
    m.query_latest_height true = .err ⟨-1, ErrorReporter e₁⟩
    ∧ m.query_latest_timestamp true = .err ⟨-1, ErrorReporter e₁⟩
    ∧ m.query_latest_height false
      = .fatal ("called Result::unwrap() on an Err value: " ++ e₂)
    ∧ m.query_latest_timestamp false
      = .fatal ("called Result::unwrap() on an Err value: " ++ e₃) := by
  refine ⟨?_, ?_, ?_, ?_⟩
  · simp only [Module.query_latest_height, if_pos, h₁]
  · simp only [Module.query_latest_timestamp, if_pos, h₁]
  · simp only [Module.query_latest_height, if_neg, h₂, Bool.false_eq_true,
      reduceIte]
  · simp only [Module.query_latest_timestamp, if_neg, h₃, Bool.false_eq_true,
      reduceIte]

/-- C6 witness: the always-failing fixture exercises all four paths. -/
theorem c6_transport_failures_witness :
    failingModule.query_latest_height true
      = .err ⟨-1, ErrorReporter "connection refused"⟩
    ∧ failingModule.query_latest_timestamp true
      = .err ⟨-1, ErrorReporter "connection refused"⟩
    ∧ failingModule.query_latest_height false
      = .fatal ("called Result::unwrap() on an Err value: "
        ++ "connection refused")
    ∧ failingModule.query_latest_timestamp false
      = .fatal ("called Result::unwrap() on an Err value: "
        ++ "connection refused") :=
  c6_transport_failures failingModule "connection refused"
    "connection refused" "connection refused" rfl rfl rfl

/-- C7: if construction reaches the spec check and the observed preset differs
from the configured one, `Module.new` fails with an error message carrying
both the expected (configured) and the actually-observed preset. -/
theorem c7_spec_mismatch (env : Env) (config : Config)
    (info : ConsensusModuleInfo) (p : Provider) (cid : Nat)
    (c : BeaconApiClient) (spr : SpecResponse)
    (h₁ : env.connect_provider config.rpc_url = .ok p)
    (h₂ : p.get_chain_id = .ok cid)
    (h₃ : info.ensure_chain_id (toString cid) = .ok ())
    (h₄ : info.ensure_consensus_type ConsensusTypeEthereum = .ok ())
    (h₅ : env.connect_beacon config.beacon_rpc_url = .ok c)
    (h₆ : c.spec = .ok spr)
    (h₇ : spr.data.preset_base ≠ config.chain_spec) :
    Module.new env config info
      = .err ("incorrect chain spec: expected `" ++ config.chain_spec.display
        ++ "`, but found `" ++ spr.data.preset_base.display ++ "`") := by
  simp only [Module.new, h₁, h₂, h₃, h₄, h₅, h₆, ne_eq, h₇,
    not_false_eq_true, reduceIte]

/-- C7 witness: configured `mainnet`, observed `minimal`: construction fails
with the message carrying both values. -/
theorem c7_spec_mismatch_witness :
    Module.new minimalEnv mainnetConfig matchingInfo
      = .err "incorrect chain spec: expected `mainnet`, but found `minimal`" :=
  c7_spec_mismatch minimalEnv mainnetConfig matchingInfo roundTripProvider 1
    minimalBeacon ⟨⟨.minimal⟩⟩ rfl rfl rfl rfl rfl rfl (by decide)

/-- C8: for every successful construction, the bound `chain_id` equals the
string of the chain identifier reported by the execution-layer provider, and
the bound `chain_spec` equals the preset actually observed from the beacon
spec query; the `Module` record carries them immutably (every query operation
takes the module unchanged). -/
theorem c8_bound_identity (env : Env) (config : Config)
    (info : ConsensusModuleInfo) (p : Provider) (cid : Nat)
    (c : BeaconApiClient) (spr : SpecResponse) (m : Module)
    (h₁ : env.connect_provider config.rpc_url = .ok p)
    (h₂ : p.get_chain_id = .ok cid)
    (h₃ : info.ensure_chain_id (toString cid) = .ok ())
    (h₄ : info.ensure_consensus_type ConsensusTypeEthereum = .ok ())
    (h₅ : env.connect_beacon config.beacon_rpc_url = .ok c)
    (h₆ : c.spec = .ok spr)
    (hm : Module.new env config info = .ok m) :
    m.chain_id = toString cid ∧ m.chain_spec = spr.data.preset_base := by
  simp only [Module.new, h₁, h₂, h₃, h₄, h₅, h₆] at hm
  by_cases hq : spr.data.preset_base = config.chain_spec
  · simp only [ne_eq, hq, not_true_eq_false, reduceIte] at hm
    cases hm
    exact ⟨rfl, hq.symm ▸ rfl⟩
  · simp only [ne_eq, hq, not_false_eq_true, reduceIte] at hm
    cases hm

/-- C8 witness: the successful construction over the round-trip fixtures binds
chain id `1` and the observed `mainnet` preset. -/
theorem c8_bound_identity_witness :
    (⟨"1", .mainnet, roundTripProvider, roundTripBeacon⟩ : Module).chain_id
      = toString 1
    ∧ (⟨"1", .mainnet, roundTripProvider,
        roundTripBeacon⟩ : Module).chain_spec
      = (⟨⟨.mainnet⟩⟩ : SpecResponse).data.preset_base :=
  c8_bound_identity goodEnv mainnetConfig matchingInfo roundTripProvider 1
    roundTripBeacon ⟨⟨.mainnet⟩⟩
    ⟨"1", .mainnet, roundTripProvider, roundTripBeacon⟩
    rfl rfl rfl rfl rfl rfl rfl

/-- C9 counterexample: with the beacon endpoint unreachable at the spec query
during binding (client construction succeeded, the spec query fails),
`Module.new` panics (from `.unwrap()`) instead of returning a construction
error result. -/
theorem c9_counterexample :
    Module.new specFailEnv mainnetConfig matchingInfo
      = .fatal "called Result::unwrap() on an Err value: connection refused"
    ∧ (Module.new specFailEnv mainnetConfig matchingInfo).isErr
      = false := ⟨rfl, rfl⟩

/-- C9 amended: failures connecting the execution-layer provider, querying its
chain id, or constructing the beacon client are returned as error results
(the module is not usable); but a transport failure of the beacon spec query
during binding makes `Module.new` panic instead of returning an error. -/
theorem c9_binding_failures (config : Config) (info : ConsensusModuleInfo)
    (envA : Env) (eA : String)
    (hA : envA.connect_provider config.rpc_url = .error eA)
    (envB : Env) (pB : Provider) (eB : String)
    (hB₁ : envB.connect_provider config.rpc_url = .ok pB)
    (hB₂ : pB.get_chain_id = .error eB)
    (envC : Env) (pC : Provider) (cidC : Nat) (eC : String)
    (hC₁ : envC.connect_provider config.rpc_url = .ok pC)
    (hC₂ : pC.get_chain_id = .ok cidC)
    (hC₃ : info.ensure_chain_id (toString cidC) = .ok ())
    (hC₄ : info.ensure_consensus_type ConsensusTypeEthereum = .ok ())
    (hC₅ : envC.connect_beacon config.beacon_rpc_url = .error eC)
    (envD : Env) (pD : Provider) (cidD : Nat) (cD : BeaconApiClient)
    (eD : String)
    (hD₁ : envD.connect_provider config.rpc_url = .ok pD)
    (hD₂ : pD.get_chain_id = .ok cidD)
    (hD₃ : info.ensure_chain_id (toString cidD) = .ok ())
    (hD₄ : info.ensure_consensus_type ConsensusTypeEthereum = .ok ())
    (hD₅ : envD.connect_beacon config.beacon_rpc_url = .ok cD)
    (hD₆ : cD.spec = .error eD) :
    Module.new envA config info = .err eA
    ∧ Module.new envB config info = .err eB
    ∧ Module.new envC config info = .err eC
    ∧ Module.new envD config info
      = .fatal ("called Result::unwrap() on an Err value: " ++ eD) := by
  refine ⟨?_, ?_, ?_, ?_⟩
  · simp only [Module.new, hA]
  · simp only [Module.new, hB₁, hB₂]
  · simp only [Module.new, hC₁, hC₂, hC₃, hC₄, hC₅]
  · simp only [Module.new, hD₁, hD₂, hD₃, hD₄, hD₅, hD₆]

/-- C9 witness: concrete environments exercising all four binding-failure
paths. -/
theorem c9_binding_failures_witness :
    Module.new noProviderEnv mainnetConfig matchingInfo
      = .err "connection refused"
    ∧ Module.new chainIdFailEnv mainnetConfig matchingInfo
      = .err "connection refused"
    ∧ Module.new noBeaconEnv mainnetConfig matchingInfo
      = .err "connection refused"
    ∧ Module.new specFailEnv mainnetConfig matchingInfo
      = .fatal ("called Result::unwrap() on an Err value: "
        ++ "connection refused") :=
  c9_binding_failures mainnetConfig matchingInfo
    noProviderEnv "connection refused" rfl
    chainIdFailEnv failingProvider "connection refused" rfl rfl
    noBeaconEnv roundTripProvider 1 "connection refused" rfl rfl rfl rfl rfl
    specFailEnv roundTripProvider 1 failingBeacon "connection refused"
    rfl rfl rfl rfl rfl rfl

/-- C10: the chain-identity check runs before the beacon client is constructed
or queried: whenever the provider-reported chain id fails the orchestrator's
expectation, `Module.new` returns the chain-identity error. The environment
`env` is universally quantified, so the conclusion holds for every behavior of
the consensus-layer endpoint (its connection and responses are arbitrary and
do not appear in the conclusion). -/
theorem c10_chain_id_checked_first (env : Env) (config : Config)
    (info : ConsensusModuleInfo) (p : Provider) (cid : Nat) (e : String)
    (h₁ : env.connect_provider config.rpc_url = .ok p)
    (h₂ : p.get_chain_id = .ok cid)
    (h₃ : info.ensure_chain_id (toString cid) = .error e) :
    Module.new env config info = .err e := by
  simp only [Module.new, h₁, h₂, h₃]

/-- C10 witness: with the orchestrator expecting chain id `5` while the
provider reports `1`, construction fails with the chain-identity error even
though the environment's beacon endpoint is entirely unreachable. -/
theorem c10_chain_id_checked_first_witness :
    (⟨"5", "ethereum"⟩ : ConsensusModuleInfo).ensure_chain_id (toString 1)
      = .error ("ChainIdentityMismatch: expected `5`, but the chain reports"
        ++ " `1`")
    ∧ Module.new ⟨fun _ => .ok roundTripProvider, fun _ => .ok failingBeacon⟩
        mainnetConfig ⟨"5", "ethereum"⟩
      = .err ("ChainIdentityMismatch: expected `5`, but the chain reports"
        ++ " `1`") :=
  ⟨rfl, c10_chain_id_checked_first
    ⟨fun _ => .ok roundTripProvider, fun _ => .ok failingBeacon⟩
    mainnetConfig ⟨"5", "ethereum"⟩ roundTripProvider 1
    ("ChainIdentityMismatch: expected `5`, but the chain reports `1`")
    rfl rfl rfl⟩

end VoyagerEthConsensus
